import Mathlib

/-!
Verification of the adaptive synchronization engine of the
allow2automate-microsoft-family plugin.

The definitions below are a shallow embedding of the JavaScript source:
`determineSyncStrategy`, `checkAndEnforceQuotas`, the `msFamily.linkChild`,
`msFamily.unlinkChild` and `msFamily.syncNow` IPC handlers, and the
`startQuotaMonitor` timer (src/index.js, bundled as part of
src/Components/TabContent.js), together with `getScreenTime` and
`setScreenTimeLimit` of src/services/MicrosoftFamilyService.js.

JavaScript objects keyed by child id are modelled as association lists,
timestamps as natural numbers (milliseconds), and the external collaborators
(the Allow2 quota source and the remote Microsoft Family API) as oracle
functions supplied to each operation. JavaScript truthiness of numbers
(`x || d` yields `d` when `x` is 0 or absent) is modelled explicitly where
the source relies on it.
-/

namespace MSFamily

/-- Association list lookup, modelling `obj[key]` on a JS object. -/
def lookupA {α : Type} (k : Nat) : List (Nat × α) → Option α
  | [] => none
  | (k', v) :: rest => if k' = k then some v else lookupA k rest

/-- Association list insert/overwrite, modelling `obj[key] = v`: an existing
key keeps its position, a new key is appended (JS insertion order). -/
def insertA {α : Type} (k : Nat) (v : α) : List (Nat × α) → List (Nat × α)
  | [] => [(k, v)]
  | (k', v') :: rest =>
      if k' = k then (k', v) :: rest else (k', v') :: insertA k v rest

/-- Association list removal, modelling `delete obj[key]`. -/
def eraseA {α : Type} (k : Nat) : List (Nat × α) → List (Nat × α)
  | [] => []
  | (k', v') :: rest => if k' = k then eraseA k rest else (k', v') :: eraseA k rest

/-- Per-entity sync state stored in `state.quotaState[allow2ChildId]`
(created by the linkChild handler and updated by checkAndEnforceQuotas). -/
structure QuotaStateEntry where
  lastSyncTime : Nat
  lastSyncMinutes : Nat
  allow2Minutes : Nat
deriving Repr, DecidableEq

/-- Plugin settings, defaulted in `msFamily.onLoad`:
`syncInterval: 600000`, `aggressiveSyncThreshold: 30`. -/
structure Settings where
  syncInterval : Nat := 600000
  aggressiveSyncThreshold : Nat := 30
deriving Repr, DecidableEq

/-- Allow2 quota record returned by `context.allow2.getQuota`. -/
structure Quota where
  allowed : Bool
  remaining : Int
deriving Repr, DecidableEq

/-- The local `const oldMinutes = quotaState?.allow2Minutes || newMinutes`
of `determineSyncStrategy`. Note the JS falsy default: `newMinutes` is
substituted both when the entry is absent and when the stored
`allow2Minutes` is 0. -/
def strategyOldMinutes (quotaState : Option QuotaStateEntry) (newMinutes : Nat) : Nat :=
  match quotaState with
  | none => newMinutes
  | some qs => if qs.allow2Minutes = 0 then newMinutes else qs.allow2Minutes

/-- The local `const lastSync = quotaState?.lastSyncTime || 0` of
`determineSyncStrategy` (a stored 0 and an absent entry both give 0). -/
def strategyLastSync (quotaState : Option QuotaStateEntry) : Nat :=
  match quotaState with
  | none => 0
  | some qs => qs.lastSyncTime

/-- Embedding of `determineSyncStrategy(allow2ChildId, newMinutes)`.
The stored quota-state entry (if any) and the current time are passed
explicitly. The aggressive interval is the hard-coded constant 600000 from
the source, independent of `settings.syncInterval`. -/
def determineSyncStrategy (settings : Settings) (quotaState : Option QuotaStateEntry)
    (newMinutes : Nat) (now : Nat) : Bool :=
  if newMinutes > strategyOldMinutes quotaState newMinutes then true
  else if newMinutes = 0 ∧ strategyOldMinutes quotaState newMinutes > 0 then true
  else if newMinutes < settings.aggressiveSyncThreshold ∧
      (now : Int) - (strategyLastSync quotaState : Int) ≥ 600000 then true
  else if (now : Int) - (strategyLastSync quotaState : Int) ≥
      (settings.syncInterval : Int) then true
  else false

/-- The plugin state fields read and written by the sync engine:
`childLinks` (msChildId → allow2ChildId), `quotaState`
(allow2ChildId → tracking entry), `authenticated`, `settings`, `lastSync`. -/
structure PluginState where
  authenticated : Bool
  childLinks : List (Nat × Nat)
  quotaState : List (Nat × QuotaStateEntry)
  settings : Settings
  lastSync : Option Nat
deriving Repr, DecidableEq

/-- Notifications emitted via `context.notification` in the sync loop. -/
inductive Notif where
  | lowScreenTime (msChildId : Nat) (remainingMinutes : Nat)
  | exhausted (msChildId : Nat)
deriving Repr, DecidableEq

/-- A record of one `familyService.setScreenTimeLimit(msChildId, minutes)`
remote call and whether it succeeded (a failure is a thrown error). -/
structure PushCall where
  msChildId : Nat
  minutes : Nat
  success : Bool
deriving Repr, DecidableEq

/-- Result of one tick of the sync engine. -/
structure TickResult where
  state : PluginState
  pushes : List PushCall
  notifs : List Notif
deriving Repr, DecidableEq

/-- Remaining minutes computed in `checkAndEnforceQuotas`:
`quota.allowed && quota.remaining > 0 ? Math.floor(quota.remaining / 60) : 0`. -/
def remainingMinutesOf (q : Quota) : Nat :=
  if q.allowed ∧ q.remaining > 0 then q.remaining.toNat / 60 else 0

/-- The notification block executed after a successful push in
`checkAndEnforceQuotas`: a low-screen-time warning when
`remainingMinutes < 10 && remainingMinutes > 0`, an exhausted alert when
`remainingMinutes === 0`, otherwise nothing. -/
def pushNotifs (msChildId rm : Nat) : List Notif :=
  if rm < 10 ∧ rm > 0 then [Notif.lowScreenTime msChildId rm]
  else if rm = 0 then [Notif.exhausted msChildId]
  else []

/-- One iteration of the per-entity loop body of `checkAndEnforceQuotas`,
for the link `(msChildId, allow2ChildId)`. External collaborators are the
quota oracle `getQuota` and the push-success oracle `pushOk` (false models
`setScreenTimeLimit` throwing; the surrounding `try/catch` then skips the
state update and the notifications and continues with the next entity). -/
def processEntity (getQuota : Nat → Option Quota) (pushOk : Nat → Nat → Bool)
    (now : Nat) (st : PluginState) (msChildId allow2ChildId : Nat) :
    PluginState × List PushCall × List Notif :=
  match getQuota allow2ChildId with
  | none => (st, [], [])
  | some q =>
    let rm := remainingMinutesOf q
    let shouldSync := determineSyncStrategy st.settings
        (lookupA allow2ChildId st.quotaState) rm now
    if shouldSync then
      if pushOk msChildId rm then
        let qs' := insertA allow2ChildId ⟨now, rm, rm⟩ st.quotaState
        ({ st with quotaState := qs' }, [⟨msChildId, rm, true⟩],
          pushNotifs msChildId rm)
      else
        (st, [⟨msChildId, rm, false⟩], [])
    else (st, [], [])

/-- The per-entity loop of `checkAndEnforceQuotas`, over the entries of
`state.childLinks` in order. -/
def runEntities (getQuota : Nat → Option Quota) (pushOk : Nat → Nat → Bool)
    (now : Nat) :
    PluginState → List (Nat × Nat) → PluginState × List PushCall × List Notif
  | st, [] => (st, [], [])
  | st, (m, a) :: rest =>
    let r1 := processEntity getQuota pushOk now st m a
    let r2 := runEntities getQuota pushOk now r1.1 rest
    (r2.1, r1.2.1 ++ r2.2.1, r1.2.2 ++ r2.2.2)

/-- Embedding of `checkAndEnforceQuotas(context)`: abort when
`!state.authenticated || !familyService.isAuthenticated()` (the parameter
`serviceAuthed` is the value of the latter), otherwise run the per-entity
loop and finally set `state.lastSync = Date.now()`. -/
def checkAndEnforceQuotas (getQuota : Nat → Option Quota)
    (pushOk : Nat → Nat → Bool) (now : Nat) (serviceAuthed : Bool)
    (st : PluginState) : TickResult :=
  if ¬(st.authenticated ∧ serviceAuthed) then ⟨st, [], []⟩
  else
    let r := runEntities getQuota pushOk now st st.childLinks
    ⟨{ r.1 with lastSync := some now }, r.2.1, r.2.2⟩

/-- Embedding of the `msFamily.linkChild` IPC handler:
`state.childLinks[msChildId] = allow2ChildId` and a zero-initialized
`state.quotaState[allow2ChildId]`. -/
def linkChild (msChildId allow2ChildId : Nat) (st : PluginState) : PluginState :=
  { st with
    childLinks := insertA msChildId allow2ChildId st.childLinks,
    quotaState := insertA allow2ChildId ⟨0, 0, 0⟩ st.quotaState }

/-- Embedding of the `msFamily.unlinkChild` IPC handler: read
`state.childLinks[msChildId]`, delete the link, and delete the quota state
only when the looked-up allow2ChildId is truthy (`if (allow2ChildId)`),
which for a numeric id also fails when the id is 0. -/
def unlinkChild (msChildId : Nat) (st : PluginState) : PluginState :=
  let a? := lookupA msChildId st.childLinks
  let st1 := { st with childLinks := eraseA msChildId st.childLinks }
  match a? with
  | none => st1
  | some a =>
      if a = 0 then st1
      else { st1 with quotaState := eraseA a st1.quotaState }

/-- Embedding of the `msFamily.syncNow` IPC handler: it runs
`checkAndEnforceQuotas(context)` itself and returns
`{ success: true, syncTime: state.lastSync }`. -/
def syncNow (getQuota : Nat → Option Quota) (pushOk : Nat → Nat → Bool)
    (now : Nat) (serviceAuthed : Bool) (st : PluginState) :
    TickResult × Option Nat :=
  let r := checkAndEnforceQuotas getQuota pushOk now serviceAuthed st
  (r, r.state.lastSync)

/-- One firing of the `setInterval` callback of `startQuotaMonitor`: the
callback wraps `checkAndEnforceQuotas` in try/catch and never touches the
`quotaMonitor` handle, so the monitor flag is returned unchanged; when the
monitor is not running no tick fires at all. -/
def quotaMonitorTick (getQuota : Nat → Option Quota)
    (pushOk : Nat → Nat → Bool) (now : Nat) (serviceAuthed : Bool)
    (running : Bool) (st : PluginState) : Bool × TickResult :=
  if running then (running, checkAndEnforceQuotas getQuota pushOk now serviceAuthed st)
  else (running, ⟨st, [], []⟩)

/-! ### MicrosoftFamilyService -/

/-- Screen-time snapshot built by `getScreenTime` from an API response. -/
structure ScreenTimeData where
  childId : Nat
  enabled : Bool
  dailyLimit : Nat
  currentUsage : Nat
  remaining : Nat
  lastUpdated : Nat
deriving Repr, DecidableEq

/-- Raw `/getScreenTimeSettings` response fields the service reads. -/
structure ScreenTimeResponse where
  enabled : Bool
  dailyLimitMinutes : Nat
  todayUsageMinutes : Nat
deriving Repr, DecidableEq

/-- The service-state fields relevant to caching and authentication:
the token (presence), its expiry, the cache duration (default 300000 ms)
and the per-child screen-time cache `childId -> { data, timestamp }`. -/
structure ServiceState where
  hasAccessToken : Bool
  tokenExpiry : Nat
  cacheDuration : Nat := 300000
  screenTimeCache : List (Nat × ScreenTimeData × Nat)
deriving Repr, DecidableEq

/-- Embedding of `isAuthenticated()`:
`this.accessToken && this.tokenExpiry && Date.now() < this.tokenExpiry`
(a zero expiry is falsy). -/
def ServiceState.isAuthenticated (s : ServiceState) (now : Nat) : Bool :=
  s.hasAccessToken ∧ s.tokenExpiry ≠ 0 ∧ now < s.tokenExpiry

/-- Errors surfaced by the service (thrown in JS). -/
inductive ServiceError where
  | notAuthenticated
  | remoteError
deriving Repr, DecidableEq

/-- The snapshot `getScreenTime` builds from a response:
`remaining = Math.max(0, dailyLimitMinutes - todayUsageMinutes)`. -/
def mkScreenTime (childId : Nat) (r : ScreenTimeResponse) (now : Nat) :
    ScreenTimeData :=
  { childId := childId
    enabled := r.enabled
    dailyLimit := r.dailyLimitMinutes
    currentUsage := r.todayUsageMinutes
    remaining := r.dailyLimitMinutes - r.todayUsageMinutes
    lastUpdated := now }

/-- Embedding of `getScreenTime(childId, forceRefresh)`. The remote call is
the oracle `remote` (none models `apiRequest` throwing). Returns the new
service state and the snapshot, or the thrown error. -/
def getScreenTime (remote : Nat → Option ScreenTimeResponse) (now : Nat)
    (s : ServiceState) (childId : Nat) (forceRefresh : Bool) :
    Except ServiceError (ServiceState × ScreenTimeData) :=
  if ¬ s.isAuthenticated now then Except.error ServiceError.notAuthenticated
  else
    match lookupA childId s.screenTimeCache with
    | some (d, ts) =>
        if ¬ forceRefresh ∧ (now : Int) - (ts : Int) < (s.cacheDuration : Int) then
          Except.ok (s, d)
        else
          match remote childId with
          | none => Except.error ServiceError.remoteError
          | some r =>
              let d' := mkScreenTime childId r now
              let c' := insertA childId (d', now) s.screenTimeCache
              Except.ok ({ s with screenTimeCache := c' }, d')
    | none =>
        match remote childId with
        | none => Except.error ServiceError.remoteError
        | some r =>
            let d' := mkScreenTime childId r now
            let c' := insertA childId (d', now) s.screenTimeCache
            Except.ok ({ s with screenTimeCache := c' }, d')

/-- Embedding of `setScreenTimeLimit(childId, minutes)`: requires
authentication, performs the remote call (the oracle `pushRemoteOk`; false
models `apiRequest` throwing, in which case the cache is not touched), and
on success deletes that child's cache entry and returns the accepted value. -/
def setScreenTimeLimit (pushRemoteOk : Bool) (now : Nat) (s : ServiceState)
    (childId : Nat) (minutes : Nat) :
    Except ServiceError (ServiceState × Nat) :=
  if ¬ s.isAuthenticated now then Except.error ServiceError.notAuthenticated
  else if pushRemoteOk then
    Except.ok ({ s with screenTimeCache := eraseA childId s.screenTimeCache },
      minutes)
  else Except.error ServiceError.remoteError

/-! ### Concrete configurations used to instantiate the theorems -/

/-- Plugin state with no links and no quota state. -/
def stEmpty : PluginState :=
  { authenticated := false, childLinks := [], quotaState := [],
    settings := {}, lastSync := none }

/-- Authenticated demo state with two links: msChild 1 → allow2 10 and
msChild 2 → allow2 20, both with prior successful pushes recorded. -/
def tickDemoState : PluginState :=
  { authenticated := true
    childLinks := [(1, 10), (2, 20)]
    quotaState := [(10, ⟨0, 5, 5⟩), (20, ⟨0, 7, 7⟩)]
    settings := {}
    lastSync := none }

/-- Demo quota oracle: allow2 child 10 has 50 minutes left, allow2 child 20
is exhausted. -/
def tickDemoQuota : Nat → Option Quota := fun a =>
  if a = 10 then some ⟨true, 3000⟩
  else if a = 20 then some ⟨true, 0⟩
  else none

/-- Demo push oracle under which the push for msChild 1 always throws and
every other push succeeds. -/
def tickDemoPushFail1 : Nat → Nat → Bool := fun m _ => if m = 1 then false else true

/-- Demo push oracle under which every push succeeds. -/
def pushAlwaysOk : Nat → Nat → Bool := fun _ _ => true

/-- Authenticated demo state with one link whose quota is unchanged and
recently pushed, so that nothing is due. -/
def noopDemoState : PluginState :=
  { authenticated := true
    childLinks := [(1, 10)]
    quotaState := [(10, ⟨1000000, 45, 45⟩)]
    settings := {}
    lastSync := none }

/-- Demo quota oracle matching the already-pushed 45 minutes. -/
def noopDemoQuota : Nat → Option Quota := fun a =>
  if a = 10 then some ⟨true, 2700⟩ else none

/-- Authenticated demo state for the repeated-exhaustion run: one link
msChild 1 → allow2 2 with 5 minutes previously pushed. -/
def exhaustDemoState : PluginState :=
  { authenticated := true
    childLinks := [(1, 2)]
    quotaState := [(2, ⟨0, 5, 5⟩)]
    settings := {}
    lastSync := none }

/-- Demo quota oracle: allow2 child 2 has no remaining quota. -/
def exhaustDemoQuota : Nat → Option Quota := fun a =>
  if a = 2 then some ⟨true, 0⟩ else none

/-- Demo service state with a cached screen-time snapshot for child 1. -/
def cacheDemoService : ServiceState :=
  { hasAccessToken := true
    tokenExpiry := 9000000
    screenTimeCache := [(1, ⟨1, true, 60, 10, 50, 1000⟩, 1000)] }

/-- Demo remote oracle answering screen-time reads for child 1 with fresh
data different from the cached snapshot. -/
def cacheDemoRemote : Nat → Option ScreenTimeResponse := fun c =>
  if c = 1 then some ⟨true, 30, 10⟩ else none

/-- The service state left by the successful demo push: the cached snapshot
for child 1 is gone. -/
def cacheDemoServicePushed : ServiceState :=
  { cacheDemoService with screenTimeCache := [] }

/-- States of the link registry reachable from an empty registry by the
`msFamily.linkChild` and `msFamily.unlinkChild` handlers, where every link
operation uses an msChildId that is not currently linked and a nonzero
allow2ChildId that is not currently the target of any link. -/
inductive LinkReachable : PluginState → Prop where
  | empty (st : PluginState) (hL : st.childLinks = [])
      (hQ : st.quotaState = []) : LinkReachable st
  | link (st : PluginState) (m a : Nat) (h : LinkReachable st) (ha : a ≠ 0)
      (hm : lookupA m st.childLinks = none)
      (hfresh : ∀ m', lookupA m' st.childLinks ≠ some a) :
      LinkReachable (linkChild m a st)
  | unlink (st : PluginState) (m : Nat) (h : LinkReachable st) :
      LinkReachable (unlinkChild m st)

/-! ### Association-list lemmas -/

theorem lookupA_insertA_self {α : Type} (k : Nat) (v : α) (l : List (Nat × α)) :
    lookupA k (insertA k v l) = some v := by
  induction l with
  | nil => simp [insertA, lookupA]
  | cons hd tl ih =>
    obtain ⟨k', v'⟩ := hd
    by_cases h : k' = k <;> simp [insertA, lookupA, h, ih]

theorem lookupA_insertA_ne {α : Type} {k k' : Nat} (v : α) (l : List (Nat × α))
    (h : k' ≠ k) : lookupA k' (insertA k v l) = lookupA k' l := by
  induction l with
  | nil => simp [insertA, lookupA]; exact fun hh => h hh.symm
  | cons hd tl ih =>
    obtain ⟨k0, v0⟩ := hd
    by_cases h0 : k0 = k <;> by_cases h1 : k0 = k' <;>
      simp_all [insertA, lookupA]

theorem lookupA_eraseA_self {α : Type} (k : Nat) (l : List (Nat × α)) :
    lookupA k (eraseA k l) = none := by
  induction l with
  | nil => simp [eraseA, lookupA]
  | cons hd tl ih =>
    obtain ⟨k0, v0⟩ := hd
    by_cases h0 : k0 = k <;> simp [eraseA, lookupA, h0, ih]

theorem lookupA_eraseA_ne {α : Type} {k k' : Nat} (l : List (Nat × α))
    (h : k' ≠ k) : lookupA k' (eraseA k l) = lookupA k' l := by
  induction l with
  | nil => simp [eraseA, lookupA]
  | cons hd tl ih =>
    obtain ⟨k0, v0⟩ := hd
    by_cases h0 : k0 = k <;> by_cases h1 : k0 = k' <;>
      simp_all [eraseA, lookupA]

theorem eraseA_of_lookupA_none {α : Type} {k : Nat} {l : List (Nat × α)}
    (h : lookupA k l = none) : eraseA k l = l := by
  induction l with
  | nil => simp [eraseA]
  | cons hd tl ih =>
    obtain ⟨k0, v0⟩ := hd
    by_cases h0 : k0 = k
    · simp [lookupA, h0] at h
    · simp [lookupA, h0] at h
      simp [eraseA, h0, ih h]

/-! ### Sync strategy theorems -/

/-- C1 counterexample. The stored sync state has lastPushedMinutes
(`allow2Minutes`) 0 and `newMinutes = 5 > 0`, both sync intervals have not
elapsed, yet `determineSyncStrategy` does not push: the JS falsy default
`quotaState?.allow2Minutes || newMinutes` discards a stored 0, so the
increase rule cannot see an increase from 0. -/
theorem strategy_increase_counterexample :
    (5 : Nat) > (QuotaStateEntry.mk 1000000 0 0).allow2Minutes ∧
    determineSyncStrategy {} (some (QuotaStateEntry.mk 1000000 0 0)) 5 1000001
      = false := by
  constructor
  · decide
  · decide

/-- C1 (amended): for every stored sync state whose last pushed value is
positive, an observed increase (`newMinutes > lastPushedMinutes`) makes
`determineSyncStrategy` push, regardless of `lastSyncTime`, of the current
time and of the configured intervals. -/
theorem strategy_increase_pushes (settings : Settings) (qs : QuotaStateEntry)
    (newMinutes now : Nat) (hpos : 0 < qs.allow2Minutes)
    (h : newMinutes > qs.allow2Minutes) :
    determineSyncStrategy settings (some qs) newMinutes now = true := by
  have hz : ¬ qs.allow2Minutes = 0 := by omega
  have hold : strategyOldMinutes (some qs) newMinutes = qs.allow2Minutes := by
    simp [strategyOldMinutes, hz]
  unfold determineSyncStrategy
  rw [hold, if_pos h]

/-- Witness for `strategy_increase_pushes` at Scenario A of the spec:
lastPushedMinutes 45, newMinutes 50, one second after the last push. -/
theorem strategy_increase_pushes_witness :
    determineSyncStrategy {} (some ⟨1000, 45, 45⟩) 50 2000 = true :=
  strategy_increase_pushes {} ⟨1000, 45, 45⟩ 50 2000 (by decide) (by decide)

/-- C2: for every stored sync state with a positive last pushed value,
an observed 0 makes `determineSyncStrategy` push immediately, regardless of
`lastSyncTime`, of the current time and of the configured intervals. -/
theorem strategy_exhaustion_pushes (settings : Settings) (qs : QuotaStateEntry)
    (now : Nat) (hpos : 0 < qs.allow2Minutes) :
    determineSyncStrategy settings (some qs) 0 now = true := by
  have hz : ¬ qs.allow2Minutes = 0 := by omega
  have hold : strategyOldMinutes (some qs) 0 = qs.allow2Minutes := by
    simp [strategyOldMinutes, hz]
  unfold determineSyncStrategy
  rw [hold, if_neg (by omega), if_pos ⟨rfl, hpos⟩]

/-- Witness for `strategy_exhaustion_pushes`: 5 minutes were pushed, the
quota is now exhausted, one millisecond after the last push. -/
theorem strategy_exhaustion_pushes_witness :
    determineSyncStrategy {} (some ⟨1000000, 5, 5⟩) 0 1000001 = true :=
  strategy_exhaustion_pushes {} ⟨1000000, 5, 5⟩ 1000001 (by decide)

/-- C9: when the observed value equals the stored last pushed value, the
normal interval has not elapsed and the value is at or above the aggressive
threshold, `determineSyncStrategy` does not push. -/
theorem strategy_steady_no_push (settings : Settings) (qs : QuotaStateEntry)
    (newMinutes now : Nat)
    (h1 : newMinutes = qs.allow2Minutes)
    (h2 : (now : Int) - (qs.lastSyncTime : Int) < (settings.syncInterval : Int))
    (h3 : settings.aggressiveSyncThreshold ≤ newMinutes) :
    determineSyncStrategy settings (some qs) newMinutes now = false := by
  have hold : strategyOldMinutes (some qs) newMinutes = newMinutes := by
    simp only [strategyOldMinutes]
    split_ifs with hz <;> omega
  have hls : strategyLastSync (some qs) = qs.lastSyncTime := rfl
  unfold determineSyncStrategy
  rw [hold, hls]
  split_ifs with h4 h5 h6 <;> first | rfl | (exfalso; omega)

/-- Witness for `strategy_steady_no_push`: 45 minutes stored and observed,
above the default threshold 30, one millisecond after the last push. -/
theorem strategy_steady_no_push_witness :
    determineSyncStrategy {} (some ⟨1000000, 45, 45⟩) 45 1000001 = false :=
  strategy_steady_no_push {} ⟨1000000, 45, 45⟩ 45 1000001 rfl (by decide)
    (by decide)

/-- C10: from a stored state with `allow2Minutes = 0` (the state linkChild
initializes and the state left after successfully pushing 0), the increase
and exhaustion rules can never fire for any observed value: the strategy
pushes exactly when the aggressive or the normal interval has elapsed; in
particular, with `lastSyncTime = 0` as left by linkChild, it pushes for
every `now` at least the normal interval. -/
theorem strategy_zero_state (settings : Settings) (qs : QuotaStateEntry)
    (newMinutes now : Nat) (hz : qs.allow2Minutes = 0) :
    (determineSyncStrategy settings (some qs) newMinutes now = true ↔
      ((newMinutes < settings.aggressiveSyncThreshold ∧
          (now : Int) - (qs.lastSyncTime : Int) ≥ 600000) ∨
        (now : Int) - (qs.lastSyncTime : Int) ≥ (settings.syncInterval : Int))) ∧
    (qs.lastSyncTime = 0 → (settings.syncInterval : Int) ≤ (now : Int) →
      determineSyncStrategy settings (some qs) newMinutes now = true) := by
  have hold : strategyOldMinutes (some qs) newMinutes = newMinutes := by
    simp [strategyOldMinutes, hz]
  have hls : strategyLastSync (some qs) = qs.lastSyncTime := rfl
  constructor
  · unfold determineSyncStrategy
    rw [hold, hls]
    split_ifs with h4 h5 h6 h7
    · exfalso; omega
    · exfalso; omega
    · exact iff_of_true rfl (Or.inl h6)
    · exact iff_of_true rfl (Or.inr h7)
    · refine iff_of_false (by simp) ?_
      intro hc
      rcases hc with hc | hc
      · exact h6 hc
      · exact h7 hc
  · intro h0 hge
    unfold determineSyncStrategy
    rw [hold, hls, h0]
    split_ifs with h4 h5 h6 h7 <;> first | rfl | (exfalso; omega)

/-! ### Sync engine theorems -/

/-- C4: when the plugin state or the service is not authenticated at the
start of a tick, the tick performs no remote calls, emits nothing, leaves
the whole plugin state (including `lastSync`) untouched, and the quota
monitor stays scheduled. -/
theorem tick_unauthenticated_noop (getQuota : Nat → Option Quota)
    (pushOk : Nat → Nat → Bool) (now : Nat) (serviceAuthed : Bool)
    (st : PluginState)
    (h : st.authenticated = false ∨ serviceAuthed = false) :
    quotaMonitorTick getQuota pushOk now serviceAuthed true st =
      (true, ⟨st, [], []⟩) := by
  rcases h with h | h <;> simp [quotaMonitorTick, checkAndEnforceQuotas, h]

/-- Witness for `tick_unauthenticated_noop` on the unauthenticated empty
state. -/
theorem tick_unauthenticated_noop_witness :
    quotaMonitorTick tickDemoQuota pushAlwaysOk 123 true true stEmpty =
      (true, ⟨stEmpty, [], []⟩) :=
  tick_unauthenticated_noop tickDemoQuota pushAlwaysOk 123 true stEmpty
    (Or.inl rfl)

/-- C8: the `msFamily.syncNow` handler runs the very same
`checkAndEnforceQuotas` function as a timer tick on the same state, so it
performs exactly the same pushes and state updates; and on a state where
nothing is due it performs no push at all for the linked entity. -/
theorem syncNow_is_tick :
    (∀ (getQuota : Nat → Option Quota) (pushOk : Nat → Nat → Bool)
      (now : Nat) (serviceAuthed : Bool) (st : PluginState),
      syncNow getQuota pushOk now serviceAuthed st =
        (checkAndEnforceQuotas getQuota pushOk now serviceAuthed st,
         (checkAndEnforceQuotas getQuota pushOk now serviceAuthed st).state.lastSync)) ∧
    (checkAndEnforceQuotas noopDemoQuota pushAlwaysOk 1000001 true
      noopDemoState).pushes = [] := by
  refine ⟨fun _ _ _ _ _ => rfl, ?_⟩
  decide

/-! ### Service cache theorems -/

/-- C5: a successful `setScreenTimeLimit` deletes the pushed child's cached
snapshot, and an immediately following `getScreenTime` with
`forceRefresh = false` behaves exactly like a forced refresh — it can never
return the pre-push cached value. -/
theorem push_invalidates_cache (now1 : Nat) (s s1 : ServiceState)
    (childId minutes accepted : Nat)
    (hpush : setScreenTimeLimit true now1 s childId minutes =
      Except.ok (s1, accepted)) :
    lookupA childId s1.screenTimeCache = none ∧
    ∀ (remote : Nat → Option ScreenTimeResponse) (now2 : Nat),
      getScreenTime remote now2 s1 childId false =
        getScreenTime remote now2 s1 childId true := by
  by_cases hauth : s.isAuthenticated now1 = true
  · simp only [setScreenTimeLimit, hauth, not_true, if_false, if_true,
      Except.ok.injEq, Prod.mk.injEq] at hpush
    obtain ⟨hs1, -⟩ := hpush
    subst hs1
    constructor
    · exact lookupA_eraseA_self childId s.screenTimeCache
    · intro remote now2
      by_cases hA : ServiceState.isAuthenticated
          { s with screenTimeCache := eraseA childId s.screenTimeCache } now2 = true
      · simp only [getScreenTime, hA, not_true, if_false,
          lookupA_eraseA_self]
      · simp only [getScreenTime]
        rw [if_pos (by simp [hA]), if_pos (by simp [hA])]
  · exfalso
    simp [setScreenTimeLimit, hauth] at hpush

/-- Witness for `push_invalidates_cache`: pushing 25 minutes for child 1
empties its cache entry and makes the next unforced read a fresh fetch. -/
theorem push_invalidates_cache_witness :
    lookupA 1 cacheDemoServicePushed.screenTimeCache = none ∧
    getScreenTime cacheDemoRemote 3000 cacheDemoServicePushed 1 false =
      getScreenTime cacheDemoRemote 3000 cacheDemoServicePushed 1 true := by
  have h := push_invalidates_cache 2000 cacheDemoService cacheDemoServicePushed
    1 25 25 (by rfl)
  exact ⟨h.1, h.2 cacheDemoRemote 3000⟩

/-! ### Notification theorems -/

/-- Case characterization of `processEntity`: either the entity is skipped
(no quota data or not due) and nothing happens, or a push is attempted; a
successful push updates the entity's quota state and emits `pushNotifs`, a
failed push leaves the state alone and emits nothing. -/
theorem processEntity_cases (getQuota : Nat → Option Quota)
    (pushOk : Nat → Nat → Bool) (now : Nat) (st : PluginState)
    (m a : Nat) :
    processEntity getQuota pushOk now st m a = (st, [], []) ∨
    (∃ q, getQuota a = some q ∧
      determineSyncStrategy st.settings (lookupA a st.quotaState)
        (remainingMinutesOf q) now = true ∧
      ((pushOk m (remainingMinutesOf q) = true ∧
        processEntity getQuota pushOk now st m a =
          ({ st with
              quotaState := insertA a
                  ⟨now, remainingMinutesOf q, remainingMinutesOf q⟩
                  st.quotaState },
            [⟨m, remainingMinutesOf q, true⟩],
            pushNotifs m (remainingMinutesOf q))) ∨
       (pushOk m (remainingMinutesOf q) = false ∧
        processEntity getQuota pushOk now st m a =
          (st, [⟨m, remainingMinutesOf q, false⟩], [])))) := by
  cases hq : getQuota a with
  | none => exact Or.inl (by simp [processEntity, hq])
  | some q =>
    by_cases hs : determineSyncStrategy st.settings (lookupA a st.quotaState)
        (remainingMinutesOf q) now = true
    · by_cases hp : pushOk m (remainingMinutesOf q) = true
      · exact Or.inr ⟨q, rfl, hs, Or.inl ⟨hp, by simp [processEntity, hq, hs, hp]⟩⟩
      · have hp' : pushOk m (remainingMinutesOf q) = false := by
          simpa using hp
        exact Or.inr ⟨q, rfl, hs, Or.inr ⟨hp', by simp [processEntity, hq, hs, hp']⟩⟩
    · have hs' : determineSyncStrategy st.settings (lookupA a st.quotaState)
          (remainingMinutesOf q) now = false := by
        simpa using hs
      exact Or.inl (by simp [processEntity, hq, hs'])

/-- Membership in the low-screen-time branch of `pushNotifs` forces the
push's child id, value and the strict bounds 0 < rm < 10. -/
theorem pushNotifs_low_mem {m m0 rm rm0 : Nat}
    (h : Notif.lowScreenTime m0 rm0 ∈ pushNotifs m rm) :
    m0 = m ∧ rm0 = rm ∧ 0 < rm ∧ rm < 10 := by
  unfold pushNotifs at h
  split_ifs at h with h1 h2 <;> simp_all

/-- Membership in the exhausted branch of `pushNotifs` forces the push's
child id and a remaining value of 0. -/
theorem pushNotifs_exhausted_mem {m m0 rm : Nat}
    (h : Notif.exhausted m0 ∈ pushNotifs m rm) :
    m0 = m ∧ rm = 0 := by
  unfold pushNotifs at h
  split_ifs at h with h1 h2 <;> simp_all

/-- Every notification produced by the per-entity loop comes from a
successful push in the same run, with the matching remaining value. -/
theorem runEntities_notifs_sound (getQuota : Nat → Option Quota)
    (pushOk : Nat → Nat → Bool) (now : Nat) :
    ∀ (links : List (Nat × Nat)) (st : PluginState),
      (∀ m0 rm, Notif.lowScreenTime m0 rm ∈ (runEntities getQuota pushOk now st links).2.2 →
        PushCall.mk m0 rm true ∈ (runEntities getQuota pushOk now st links).2.1 ∧
          0 < rm ∧ rm < 10) ∧
      (∀ m0, Notif.exhausted m0 ∈ (runEntities getQuota pushOk now st links).2.2 →
        PushCall.mk m0 0 true ∈ (runEntities getQuota pushOk now st links).2.1) := by
  intro links
  induction links with
  | nil => intro st; simp [runEntities]
  | cons hd tl ih =>
    intro st
    obtain ⟨m, a⟩ := hd
    have hcases := processEntity_cases getQuota pushOk now st m a
    constructor
    · intro m0 rm hmem
      simp only [runEntities, List.mem_append] at hmem ⊢
      rcases hmem with hmem | hmem
      · rcases hcases with hc | ⟨q, hq, hs, ⟨hp, hc⟩ | ⟨hp, hc⟩⟩
        · rw [hc] at hmem; simp at hmem
        · rw [hc] at hmem
          obtain ⟨hm0, hrm, hlo, hhi⟩ := pushNotifs_low_mem hmem
          subst hm0; subst hrm
          exact ⟨Or.inl (by rw [hc]; simp), hlo, hhi⟩
        · rw [hc] at hmem; simp at hmem
      · have := ((ih _).1) m0 rm hmem
        exact ⟨Or.inr this.1, this.2⟩
    · intro m0 hmem
      simp only [runEntities, List.mem_append] at hmem ⊢
      rcases hmem with hmem | hmem
      · rcases hcases with hc | ⟨q, hq, hs, ⟨hp, hc⟩ | ⟨hp, hc⟩⟩
        · rw [hc] at hmem; simp at hmem
        · rw [hc] at hmem
          obtain ⟨hm0, hrm⟩ := pushNotifs_exhausted_mem hmem
          subst hm0
          refine Or.inl ?_
          rw [hc]
          simp [hrm]
        · rw [hc] at hmem; simp at hmem
      · exact Or.inr (((ih _).2) m0 hmem)

/-- The per-entity loop over an appended link list runs the first part and
then the second part from the resulting state, concatenating the events. -/
theorem runEntities_append (getQuota : Nat → Option Quota)
    (pushOk : Nat → Nat → Bool) (now : Nat) (xs ys : List (Nat × Nat))
    (st : PluginState) :
    runEntities getQuota pushOk now st (xs ++ ys) =
      ((runEntities getQuota pushOk now
          (runEntities getQuota pushOk now st xs).1 ys).1,
       (runEntities getQuota pushOk now st xs).2.1 ++
         (runEntities getQuota pushOk now
           (runEntities getQuota pushOk now st xs).1 ys).2.1,
       (runEntities getQuota pushOk now st xs).2.2 ++
         (runEntities getQuota pushOk now
           (runEntities getQuota pushOk now st xs).1 ys).2.2) := by
  induction xs generalizing st with
  | nil => simp [runEntities]
  | cons hd tl ih =>
    obtain ⟨m, a⟩ := hd
    simp only [List.cons_append, runEntities, List.append_eq]
    rw [ih]
    simp [List.append_assoc]

/-- A per-entity step for a link whose target differs from `k` does not
change the quota state stored under `k`. -/
theorem processEntity_quotaState_other (getQuota : Nat → Option Quota)
    (pushOk : Nat → Nat → Bool) (now : Nat) (st : PluginState)
    (m a k : Nat) (hk : k ≠ a) :
    lookupA k (processEntity getQuota pushOk now st m a).1.quotaState =
      lookupA k st.quotaState := by
  rcases processEntity_cases getQuota pushOk now st m a with
    hc | ⟨q, hq, hs, ⟨hp, hc⟩ | ⟨hp, hc⟩⟩ <;> rw [hc]
  · exact lookupA_insertA_ne _ _ hk

/-- The per-entity loop does not change the quota state stored under a key
that is not the target of any processed link. -/
theorem runEntities_quotaState_other (getQuota : Nat → Option Quota)
    (pushOk : Nat → Nat → Bool) (now : Nat) :
    ∀ (links : List (Nat × Nat)) (st : PluginState) (k : Nat),
      k ∉ links.map Prod.snd →
      lookupA k (runEntities getQuota pushOk now st links).1.quotaState =
        lookupA k st.quotaState := by
  intro links
  induction links with
  | nil => intro st k _; rfl
  | cons hd tl ih =>
    intro st k h
    obtain ⟨m, a⟩ := hd
    simp only [List.map_cons, List.mem_cons, not_or] at h
    simp only [runEntities]
    rw [ih _ k h.2, processEntity_quotaState_other getQuota pushOk now st m a k h.1]

/-- When every push for `m` fails, the per-entity step for `(m, a)` leaves
the plugin state untouched and emits no notification. -/
theorem processEntity_fail_noop (getQuota : Nat → Option Quota)
    (pushOk : Nat → Nat → Bool) (now : Nat) (st : PluginState) (m a : Nat)
    (hfail : ∀ r, pushOk m r = false) :
    (processEntity getQuota pushOk now st m a).1 = st ∧
    (processEntity getQuota pushOk now st m a).2.2 = [] := by
  rcases processEntity_cases getQuota pushOk now st m a with
    hc | ⟨q, hq, hs, ⟨hp, hc⟩ | ⟨hp, hc⟩⟩ <;> rw [hc]
  · exact ⟨rfl, rfl⟩
  · rw [hfail] at hp; cases hp
  · exact ⟨rfl, rfl⟩

/-- C3: when one linked entity's push always fails (`setScreenTimeLimit`
throws), the tick leaves that entity's quota-state entry exactly as it was,
and the loop is not aborted: the entities before and after it are evaluated
exactly as if the failing entity had contributed nothing but its failed
push record — the failing entity causes no state change and no
notification. -/
theorem tick_failure_isolated (getQuota : Nat → Option Quota)
    (pushOk : Nat → Nat → Bool) (now : Nat) (st : PluginState)
    (pre post : List (Nat × Nat)) (mA aA : Nat)
    (hlinks : st.childLinks = pre ++ (mA, aA) :: post)
    (hauth : st.authenticated = true)
    (hfail : ∀ r, pushOk mA r = false)
    (hpre : aA ∉ pre.map Prod.snd) (hpost : aA ∉ post.map Prod.snd) :
    lookupA aA (checkAndEnforceQuotas getQuota pushOk now true st).state.quotaState =
      lookupA aA st.quotaState ∧
    checkAndEnforceQuotas getQuota pushOk now true st =
      ⟨{ (runEntities getQuota pushOk now
            (runEntities getQuota pushOk now st pre).1 post).1 with
          lastSync := some now },
        (runEntities getQuota pushOk now st pre).2.1 ++
          (processEntity getQuota pushOk now
            (runEntities getQuota pushOk now st pre).1 mA aA).2.1 ++
          (runEntities getQuota pushOk now
            (runEntities getQuota pushOk now st pre).1 post).2.1,
        (runEntities getQuota pushOk now st pre).2.2 ++
          (runEntities getQuota pushOk now
            (runEntities getQuota pushOk now st pre).1 post).2.2⟩ := by
  have hcons : ∀ st1 : PluginState,
      runEntities getQuota pushOk now st1 ((mA, aA) :: post) =
        ((runEntities getQuota pushOk now st1 post).1,
         (processEntity getQuota pushOk now st1 mA aA).2.1 ++
           (runEntities getQuota pushOk now st1 post).2.1,
         (runEntities getQuota pushOk now st1 post).2.2) := by
    intro st1
    have h1 := (processEntity_fail_noop getQuota pushOk now st1 mA aA hfail).1
    have h2 := (processEntity_fail_noop getQuota pushOk now st1 mA aA hfail).2
    simp only [runEntities]
    rw [h1, h2]
    simp
  have hbody : checkAndEnforceQuotas getQuota pushOk now true st =
      ⟨{ (runEntities getQuota pushOk now st st.childLinks).1 with
          lastSync := some now },
        (runEntities getQuota pushOk now st st.childLinks).2.1,
        (runEntities getQuota pushOk now st st.childLinks).2.2⟩ := by
    unfold checkAndEnforceQuotas
    rw [if_neg (by simp [hauth])]
  rw [hbody, hlinks, runEntities_append, hcons]
  constructor
  · have ha := runEntities_quotaState_other getQuota pushOk now post
      (runEntities getQuota pushOk now st pre).1 aA hpost
    have hb := runEntities_quotaState_other getQuota pushOk now pre st aA hpre
    simpa using ha.trans hb
  · simp [List.append_assoc]

/-- Witness for `tick_failure_isolated`: in the two-entity demo tick the
push for msChild 1 throws while msChild 2 is still evaluated and pushed;
entity 1's quota-state entry is unchanged. -/
theorem tick_failure_isolated_witness :
    lookupA 10 (checkAndEnforceQuotas tickDemoQuota tickDemoPushFail1 700000
        true tickDemoState).state.quotaState =
      lookupA 10 tickDemoState.quotaState ∧
    (checkAndEnforceQuotas tickDemoQuota tickDemoPushFail1 700000 true
        tickDemoState).pushes =
      (runEntities tickDemoQuota tickDemoPushFail1 700000 tickDemoState []).2.1 ++
        (processEntity tickDemoQuota tickDemoPushFail1 700000
          (runEntities tickDemoQuota tickDemoPushFail1 700000 tickDemoState []).1
          1 10).2.1 ++
        (runEntities tickDemoQuota tickDemoPushFail1 700000
          (runEntities tickDemoQuota tickDemoPushFail1 700000 tickDemoState []).1
          [(2, 20)]).2.1 := by
  have h := tick_failure_isolated tickDemoQuota tickDemoPushFail1 700000
    tickDemoState [] [(2, 20)] 1 10 rfl rfl (fun _ => rfl) (by simp) (by simp)
  exact ⟨h.1, congrArg TickResult.pushes h.2⟩

/-- Every successful push recorded by the per-entity loop emits its
threshold notification: the low notice when 0 < rm < 10 and the exhausted
notice when rm = 0. -/
theorem runEntities_notifs_complete (getQuota : Nat → Option Quota)
    (pushOk : Nat → Nat → Bool) (now : Nat) :
    ∀ (links : List (Nat × Nat)) (st : PluginState),
      (∀ m0 rm, PushCall.mk m0 rm true ∈ (runEntities getQuota pushOk now st links).2.1 →
        0 < rm → rm < 10 →
        Notif.lowScreenTime m0 rm ∈ (runEntities getQuota pushOk now st links).2.2) ∧
      (∀ m0, PushCall.mk m0 0 true ∈ (runEntities getQuota pushOk now st links).2.1 →
        Notif.exhausted m0 ∈ (runEntities getQuota pushOk now st links).2.2) := by
  intro links
  induction links with
  | nil => intro st; simp [runEntities]
  | cons hd tl ih =>
    intro st
    obtain ⟨m, a⟩ := hd
    have hcases := processEntity_cases getQuota pushOk now st m a
    constructor
    · intro m0 rm hmem hlo hhi
      simp only [runEntities, List.mem_append] at hmem ⊢
      rcases hmem with hmem | hmem
      · rcases hcases with hc | ⟨q, hq, hs, ⟨hp, hc⟩ | ⟨hp, hc⟩⟩
        · rw [hc] at hmem; simp at hmem
        · rw [hc] at hmem
          simp only [List.mem_singleton, PushCall.mk.injEq] at hmem
          obtain ⟨hm0, hrm, -⟩ := hmem
          subst hm0; subst hrm
          refine Or.inl ?_
          rw [hc]
          simp [pushNotifs, hlo, hhi]
        · rw [hc] at hmem
          simp at hmem
      · exact Or.inr (((ih _).1) m0 rm hmem hlo hhi)
    · intro m0 hmem
      simp only [runEntities, List.mem_append] at hmem ⊢
      rcases hmem with hmem | hmem
      · rcases hcases with hc | ⟨q, hq, hs, ⟨hp, hc⟩ | ⟨hp, hc⟩⟩
        · rw [hc] at hmem; simp at hmem
        · rw [hc] at hmem
          simp only [List.mem_singleton, PushCall.mk.injEq] at hmem
          obtain ⟨hm0, hrm, -⟩ := hmem
          subst hm0
          refine Or.inl ?_
          rw [hc]
          simp [pushNotifs, ← hrm]
        · rw [hc] at hmem
          simp at hmem
      · exact Or.inr (((ih _).2) m0 hmem)

/-- C6 counterexample. From a state with 5 minutes previously pushed and a
quota that stays exhausted, the tick at t = 600000 pushes 0 successfully
and emits the exhausted notice, and the next tick at t = 1200000 (from the
resulting state, remaining still 0) again pushes successfully and emits the
exhausted notice a second time: the notice is not restricted to the
transition from a positive pushed value. -/
theorem exhausted_notif_repeats_counterexample :
    (checkAndEnforceQuotas exhaustDemoQuota pushAlwaysOk 600000 true
      exhaustDemoState).pushes = [⟨1, 0, true⟩] ∧
    (checkAndEnforceQuotas exhaustDemoQuota pushAlwaysOk 600000 true
      exhaustDemoState).notifs = [Notif.exhausted 1] ∧
    (checkAndEnforceQuotas exhaustDemoQuota pushAlwaysOk 1200000 true
      (checkAndEnforceQuotas exhaustDemoQuota pushAlwaysOk 600000 true
        exhaustDemoState).state).pushes = [⟨1, 0, true⟩] ∧
    (checkAndEnforceQuotas exhaustDemoQuota pushAlwaysOk 1200000 true
      (checkAndEnforceQuotas exhaustDemoQuota pushAlwaysOk 600000 true
        exhaustDemoState).state).notifs = [Notif.exhausted 1] := by
  decide

/-- C6 (amended): notifications are emitted only on a successful push for
that entity, never on a mere evaluation or a failed push: in every tick the
low-allowance notice appears exactly for the successful pushes whose
remaining value lies strictly between 0 and 10, and the exhausted notice
exactly for the successful pushes whose remaining value is 0 (such a push,
and hence its notice, can recur on later due ticks while remaining stays
0). -/
theorem tick_notifs_only_on_successful_push (getQuota : Nat → Option Quota)
    (pushOk : Nat → Nat → Bool) (now : Nat) (serviceAuthed : Bool)
    (st : PluginState) :
    (∀ m0 rm, Notif.lowScreenTime m0 rm ∈
        (checkAndEnforceQuotas getQuota pushOk now serviceAuthed st).notifs →
      PushCall.mk m0 rm true ∈
        (checkAndEnforceQuotas getQuota pushOk now serviceAuthed st).pushes ∧
        0 < rm ∧ rm < 10) ∧
    (∀ m0, Notif.exhausted m0 ∈
        (checkAndEnforceQuotas getQuota pushOk now serviceAuthed st).notifs →
      PushCall.mk m0 0 true ∈
        (checkAndEnforceQuotas getQuota pushOk now serviceAuthed st).pushes) ∧
    (∀ m0 rm, PushCall.mk m0 rm true ∈
        (checkAndEnforceQuotas getQuota pushOk now serviceAuthed st).pushes →
      0 < rm → rm < 10 →
      Notif.lowScreenTime m0 rm ∈
        (checkAndEnforceQuotas getQuota pushOk now serviceAuthed st).notifs) ∧
    (∀ m0, PushCall.mk m0 0 true ∈
        (checkAndEnforceQuotas getQuota pushOk now serviceAuthed st).pushes →
      Notif.exhausted m0 ∈
        (checkAndEnforceQuotas getQuota pushOk now serviceAuthed st).notifs) := by
  unfold checkAndEnforceQuotas
  split_ifs with h
  · exact ⟨(runEntities_notifs_sound getQuota pushOk now st.childLinks st).1,
      (runEntities_notifs_sound getQuota pushOk now st.childLinks st).2,
      (runEntities_notifs_complete getQuota pushOk now st.childLinks st).1,
      (runEntities_notifs_complete getQuota pushOk now st.childLinks st).2⟩
  · simp

/-- Witness for `tick_notifs_only_on_successful_push`: the exhausted notice
of the demo tick is backed by a successful push of 0. -/
theorem tick_notifs_only_on_successful_push_witness :
    PushCall.mk 1 0 true ∈ (checkAndEnforceQuotas exhaustDemoQuota
      pushAlwaysOk 600000 true exhaustDemoState).pushes :=
  (tick_notifs_only_on_successful_push exhaustDemoQuota pushAlwaysOk 600000
    true exhaustDemoState).2.1 1 (by decide)

/-! ### Link registry theorems -/

/-- Characterization of lookup after insert. -/
theorem lookupA_insertA {α : Type} (k k' : Nat) (v : α) (l : List (Nat × α)) :
    lookupA k' (insertA k v l) =
      if k' = k then some v else lookupA k' l := by
  split_ifs with h
  · subst h; exact lookupA_insertA_self k' v l
  · exact lookupA_insertA_ne v l h

/-- Characterization of lookup after erase. -/
theorem lookupA_eraseA {α : Type} (k k' : Nat) (l : List (Nat × α)) :
    lookupA k' (eraseA k l) = if k' = k then none else lookupA k' l := by
  split_ifs with h
  · subst h; exact lookupA_eraseA_self k' l
  · exact lookupA_eraseA_ne l h

/-- Case characterization of the `msFamily.unlinkChild` handler: when the
msChildId is unlinked, or linked to the falsy id 0, only the link entry is
erased; otherwise both the link and its target's quota state are erased. -/
theorem unlinkChild_eq (m : Nat) (st : PluginState) :
    (lookupA m st.childLinks = none ∧
      unlinkChild m st = { st with childLinks := eraseA m st.childLinks }) ∨
    (lookupA m st.childLinks = some 0 ∧
      unlinkChild m st = { st with childLinks := eraseA m st.childLinks }) ∨
    (∃ a, lookupA m st.childLinks = some a ∧ a ≠ 0 ∧
      unlinkChild m st =
        { st with childLinks := eraseA m st.childLinks,
                  quotaState := eraseA a st.quotaState }) := by
  cases hma : lookupA m st.childLinks with
  | none => exact Or.inl ⟨rfl, by simp [unlinkChild, hma]⟩
  | some a =>
    by_cases h0 : a = 0
    · subst h0
      exact Or.inr (Or.inl ⟨rfl, by simp [unlinkChild, hma]⟩)
    · exact Or.inr (Or.inr ⟨a, rfl, h0, by simp [unlinkChild, hma, h0]⟩)

/-- The invariant maintained by the guarded link and unlink operations:
all link targets are nonzero, targets are not shared between msChildIds,
and an allow2ChildId has a quota-state entry precisely when some link
targets it. -/
theorem linkReachable_inv {st : PluginState} (h : LinkReachable st) :
    (∀ m a, lookupA m st.childLinks = some a → a ≠ 0) ∧
    (∀ m1 m2 a, lookupA m1 st.childLinks = some a →
      lookupA m2 st.childLinks = some a → m1 = m2) ∧
    (∀ a, (∃ m, lookupA m st.childLinks = some a) ↔
      (lookupA a st.quotaState).isSome = true) := by
  induction h with
  | empty st hL hQ =>
    refine ⟨?_, ?_, ?_⟩ <;> simp [hL, hQ, lookupA]
  | link st m a h ha hm hfresh ih =>
    obtain ⟨ih1, ih2, ih3⟩ := ih
    refine ⟨?_, ?_, ?_⟩
    · intro m' b hb
      simp only [linkChild] at hb
      rw [lookupA_insertA] at hb
      by_cases he : m' = m
      · rw [if_pos he] at hb
        obtain rfl : a = b := Option.some.inj hb
        exact ha
      · rw [if_neg he] at hb
        exact ih1 m' b hb
    · intro m1 m2 b h1 h2
      simp only [linkChild] at h1 h2
      rw [lookupA_insertA] at h1 h2
      by_cases e1 : m1 = m <;> by_cases e2 : m2 = m
      · exact e1.trans e2.symm
      · rw [if_pos e1] at h1
        rw [if_neg e2] at h2
        obtain rfl : a = b := Option.some.inj h1
        exact absurd h2 (hfresh m2)
      · rw [if_neg e1] at h1
        rw [if_pos e2] at h2
        obtain rfl : a = b := Option.some.inj h2
        exact absurd h1 (hfresh m1)
      · rw [if_neg e1] at h1
        rw [if_neg e2] at h2
        exact ih2 m1 m2 b h1 h2
    · intro b
      simp only [linkChild]
      by_cases hba : b = a
      · subst hba
        constructor
        · intro _
          rw [lookupA_insertA_self]
          rfl
        · intro _
          exact ⟨m, lookupA_insertA_self m b st.childLinks⟩
      · rw [lookupA_insertA_ne _ _ hba, ← ih3 b]
        constructor
        · rintro ⟨m', hm'⟩
          rw [lookupA_insertA] at hm'
          by_cases he : m' = m
          · rw [if_pos he] at hm'
            exact absurd (Option.some.inj hm').symm hba
          · rw [if_neg he] at hm'
            exact ⟨m', hm'⟩
        · rintro ⟨m', hm'⟩
          refine ⟨m', ?_⟩
          rw [lookupA_insertA]
          split_ifs with he
          · subst he
            rw [hm] at hm'
            exact Option.noConfusion hm'
          · exact hm'
  | unlink st m h ih =>
    obtain ⟨ih1, ih2, ih3⟩ := ih
    rcases unlinkChild_eq m st with ⟨hma, hc⟩ | ⟨hma, hc⟩ | ⟨a, hma, ha0, hc⟩
    · rw [hc, eraseA_of_lookupA_none hma]
      exact ⟨ih1, ih2, ih3⟩
    · exact absurd rfl (ih1 m 0 hma)
    · rw [hc]
      refine ⟨?_, ?_, ?_⟩
      · intro m' b hb
        rw [lookupA_eraseA] at hb
        by_cases he : m' = m
        · rw [if_pos he] at hb
          exact Option.noConfusion hb
        · rw [if_neg he] at hb
          exact ih1 m' b hb
      · intro m1 m2 b h1 h2
        rw [lookupA_eraseA] at h1 h2
        by_cases e1 : m1 = m <;> by_cases e2 : m2 = m
        · exact e1.trans e2.symm
        · rw [if_pos e1] at h1
          exact Option.noConfusion h1
        · rw [if_pos e2] at h2
          exact Option.noConfusion h2
        · rw [if_neg e1] at h1
          rw [if_neg e2] at h2
          exact ih2 m1 m2 b h1 h2
      · intro b
        by_cases hba : b = a
        · subst hba
          rw [lookupA_eraseA_self]
          simp only [Option.isSome_none]
          constructor
          · rintro ⟨k, hk⟩
            rw [lookupA_eraseA] at hk
            by_cases he : k = m
            · rw [if_pos he] at hk
              exact Option.noConfusion hk
            · rw [if_neg he] at hk
              exact absurd (ih2 k m b hk hma) he
          · intro hfalse
            exact Bool.noConfusion hfalse
        · rw [lookupA_eraseA_ne _ hba, ← ih3 b]
          constructor
          · rintro ⟨k, hk⟩
            rw [lookupA_eraseA] at hk
            by_cases he : k = m
            · rw [if_pos he] at hk
              exact Option.noConfusion hk
            · rw [if_neg he] at hk
              exact ⟨k, hk⟩
          · rintro ⟨k, hk⟩
            refine ⟨k, ?_⟩
            rw [lookupA_eraseA]
            split_ifs with he
            · subst he
              rw [hma] at hk
              exact absurd (Option.some.inj hk).symm hba
            · exact hk

/-- C7 counterexample. The operation sequence
`linkChild 1 5; linkChild 1 7` (relinking msChild 1 to a different allow2
child) leaves a state whose only link targets allow2 child 7, while the
quota-state entry of allow2 child 5 still exists: a Sync State has outlived
its link, so the claimed invariant fails for unrestricted link sequences. -/
theorem relink_orphans_sync_state_counterexample :
    (linkChild 1 7 (linkChild 1 5 stEmpty)).childLinks = [(1, 7)] ∧
    lookupA 5 (linkChild 1 7 (linkChild 1 5 stEmpty)).quotaState =
      some ⟨0, 0, 0⟩ := by
  decide

/-- C7 (amended): `linkChild` creates the link and the zero-initialized
Sync State together and `unlinkChild` removes the link; and in every state
reachable by link and unlink operations in which each link uses a
not-currently-linked msChildId and a fresh nonzero allow2ChildId, an
allow2ChildId has a Sync State exactly when some link targets it (each
linked entity has its Sync State, and no Sync State outlives its link). -/
theorem link_registry_invariant (st : PluginState) (h : LinkReachable st) :
    (∀ (m a : Nat) (st0 : PluginState),
      lookupA m (linkChild m a st0).childLinks = some a ∧
      lookupA a (linkChild m a st0).quotaState = some ⟨0, 0, 0⟩) ∧
    (∀ (m : Nat) (st0 : PluginState),
      lookupA m (unlinkChild m st0).childLinks = none) ∧
    (∀ a, (∃ m, lookupA m st.childLinks = some a) ↔
      (lookupA a st.quotaState).isSome = true) := by
  refine ⟨?_, ?_, (linkReachable_inv h).2.2⟩
  · intro m a st0
    constructor
    · exact lookupA_insertA_self m a st0.childLinks
    · show lookupA a (insertA a ⟨0, 0, 0⟩ st0.quotaState) = some ⟨0, 0, 0⟩
      exact lookupA_insertA_self a ⟨0, 0, 0⟩ st0.quotaState
  · intro m st0
    rcases unlinkChild_eq m st0 with ⟨hma, hc⟩ | ⟨hma, hc⟩ | ⟨a, hma, ha0, hc⟩ <;>
      rw [hc] <;> exact lookupA_eraseA_self m st0.childLinks

/-- Witness for `link_registry_invariant` on the state reached by one link
operation. -/
theorem link_registry_invariant_witness :
    (∃ m, lookupA m (linkChild 1 5 stEmpty).childLinks = some 5) ↔
      (lookupA 5 (linkChild 1 5 stEmpty).quotaState).isSome = true :=
  (link_registry_invariant (linkChild 1 5 stEmpty)
    (LinkReachable.link stEmpty 1 5 (LinkReachable.empty stEmpty rfl rfl)
      (by decide) rfl (by intro m'; simp [stEmpty, lookupA]))).2.2 5

/-- Witness for `strategy_zero_state` at the post-link state `⟨0, 0, 0⟩`
with 100 observed minutes at the default normal interval. -/
theorem strategy_zero_state_witness :
    ((determineSyncStrategy {} (some ⟨0, 0, 0⟩) 100 600000 = true ↔
      ((100 < (Settings.mk 600000 30).aggressiveSyncThreshold ∧
          (600000 : Int) - ((0 : Nat) : Int) ≥ 600000) ∨
        (600000 : Int) - ((0 : Nat) : Int) ≥ (((Settings.mk 600000 30).syncInterval : Nat) : Int))) ∧
    ((0 : Nat) = 0 → (((Settings.mk 600000 30).syncInterval : Nat) : Int) ≤ ((600000 : Nat) : Int) →
      determineSyncStrategy {} (some ⟨0, 0, 0⟩) 100 600000 = true)) :=
  strategy_zero_state {} ⟨0, 0, 0⟩ 100 600000 rfl

end MSFamily
